import Mathlib

/-!
Shallow embedding of `src/wrapspawner/wrapspawner/customwrap.py`
(class `CustomDockerProfilesSpawner`), together with theorems settling the
claims about it.

Python dictionaries are modelled as association lists with
insert-or-overwrite-in-place semantics (`insertA`), matching the behaviour
and iteration order of CPython dicts.  Python classes stored in profile
tuples are modelled by `SpawnerClass`.  The heterogeneous values stored in
spawner-configuration dictionaries are modelled by `Val`, which covers the
value shapes the source actually stores (strings, integers, lists of
strings, string-to-string dictionaries, string-to-list dictionaries).
Fallible Python code is modelled with `Except PyErr`.
-/

namespace CustomWrap

/-- Python exception kinds raised by the embedded code paths. -/
inductive PyErr where
  | indexError : PyErr
  | typeError : PyErr
  | keyError : PyErr
  | exception : String → PyErr
deriving DecidableEq

/-- A network-level failure of `urllib.request.urlopen`
(`urllib.error.URLError`). -/
inductive URLError where
  | mk : String → URLError
deriving DecidableEq

/-- Values stored in spawner configuration dictionaries.  The source stores
strings, integers, lists of strings, string-valued dictionaries
(`read_only_volumes`, `extra_create_kwargs`) and list-valued dictionaries
(`extra_host_config`). -/
inductive Val where
  | str : String → Val
  | num : Int → Val
  | strList : List String → Val
  | strDict : List (String × String) → Val
  | listDict : List (String × List String) → Val
deriving DecidableEq

/-- A Python dict of spawner options, in insertion order. -/
abbrev Dict := List (String × Val)

/-- The Spawner class stored in the third slot of a profile tuple: either the
`LocalProcessSpawner` class object, or a class named by a dotted string such
as the string "dockerspawner.SystemUserSpawner". -/
inductive SpawnerClass where
  | localProcessSpawner : SpawnerClass
  | named : String → SpawnerClass
deriving DecidableEq

/-- One profile tuple `(display name, key, Spawner class, options dict)`. -/
structure Profile where
  display : String
  key : String
  ty : SpawnerClass
  options : Dict
deriving DecidableEq

/-- One image tuple `(display name, image reference)`. -/
structure Image where
  display : String
  key : String
deriving DecidableEq

/-- `d[k] = v` on a Python dict: overwrite in place when the key exists,
append otherwise. -/
def insertA {α : Type} : List (String × α) → String → α → List (String × α)
  | [], k, v => [(k, v)]
  | (k1, v1) :: rest, k, v =>
      if k1 = k then (k, v) :: rest else (k1, v1) :: insertA rest k v

/-- `d.get(k)` on a Python dict. -/
def lookupA {α : Type} : List (String × α) → String → Option α
  | [], _ => none
  | (k1, v1) :: rest, k => if k1 = k then some v1 else lookupA rest k

/-- `d.update(e)` on Python dicts: insert the entries of `e` left to right. -/
def dictUpdate (d e : Dict) : Dict :=
  e.foldl (fun acc kv => insertA acc kv.1 kv.2) d

/-- The instance state of a `CustomDockerProfilesSpawner`: the configurable
traits and the two selection fields `child_profile` / `profile_image`,
together with the `child_class` / `child_config` fields inherited from the
wrap-spawner base class. -/
structure Spawner where
  groups : List String
  default_profiles : List Profile
  group_images : List (String × List Image)
  default_profile_image : List Image
  docker_spawner_args : Dict
  first_template : String
  user_name : String
  child_profile : String
  profile_image : String
  child_class : SpawnerClass
  child_config : Dict
deriving DecidableEq

/-! ## The selection controller

`select_profile(self, profile, image)` iterates over `self.profiles` and, on
the first entry whose key equals `profile`, sets `self.child_class` and
`self.child_config` and breaks.  Crucially, `self.child_config = p[3]`
aliases the dictionary object stored in the registry tuple, so the
subsequent `self.child_config["image"] = image` also mutates the registry
entry.  The embedding makes the aliasing explicit: the returned registry has
the matched entry holding the same updated dictionary as `child_config`.
The registry list that `self.profiles` evaluates to is passed as an explicit
parameter. -/

def selectFromList (registry : List Profile) (profile image : String) :
    Option (SpawnerClass × Dict × List Profile) :=
  match registry with
  | [] => none
  | p :: rest =>
      if p.key = profile then
        let cfg := insertA p.options "image" (Val.str image)
        some (p.ty, cfg, { p with options := cfg } :: rest)
      else
        match selectFromList rest profile image with
        | none => none
        | some (c, d, rest2) => some (c, d, p :: rest2)

/-- `select_profile`: on a match, update `child_class` / `child_config` (and,
through aliasing, the matched registry entry); on no match, change nothing. -/
def select_profile (s : Spawner) (registry : List Profile)
    (profile image : String) : Spawner × List Profile :=
  match selectFromList registry profile image with
  | none => (s, registry)
  | some (c, d, reg2) =>
      ({ s with child_class := c, child_config := d }, reg2)

/-- `load_child_class(self, state)`: read `state["profile"]` and
`state["dockerImage"]`; a `KeyError` on either read leaves both fields reset
to the empty string (the first assignment is undone by the `except` branch).
Then call `select_profile` on the restored pair.  Session state is a Python
dict whose two relevant entries are strings. -/
def load_child_class (s : Spawner) (registry : List Profile)
    (st : List (String × String)) : Spawner × List Profile :=
  let pair : String × String :=
    match lookupA st "profile" with
    | none => ("", "")
    | some cp =>
        match lookupA st "dockerImage" with
        | none => ("", "")
        | some di => (cp, di)
  select_profile { s with child_profile := pair.1, profile_image := pair.2 }
    registry pair.1 pair.2

/-- `get_state(self)`: take the state dict returned by the superclass and
merge in the two selection fields. -/
def get_state (s : Spawner) (base : List (String × String)) :
    List (String × String) :=
  insertA (insertA base "profile" s.child_profile) "dockerImage" s.profile_image

/-- `clear_state(self)`: reset both selection fields to the empty string. -/
def clear_state (s : Spawner) : Spawner :=
  { s with child_profile := "", profile_image := "" }

/-! ## The GPU sidecar probe and docker profile synthesis -/

/-- The parsed JSON body returned by the GPU sidecar endpoint. -/
structure NvidiaJson where
  Volumes : List String
  VolumeDriver : String
  Devices : List String
deriving DecidableEq

/-- `vol.split(":")[0]` and `vol.split(":")[1]`: the second subscript raises
`IndexError` when the volume string holds no colon. -/
def splitVol (vol : String) : Except PyErr (String × String) :=
  match vol.splitOn ":" with
  | a :: b :: _ => Except.ok (a, b)
  | _ => Except.error PyErr.indexError

/-- `_nvidia_args(self)`: fetch and parse the sidecar response; a
network-level `URLError` is caught and yields the empty dict.  The fetch
outcome (either a `URLError` or a successfully parsed body) is passed as a
parameter. -/
def nvidia_args (fetch : Except URLError NvidiaJson) : Except PyErr Dict :=
  match fetch with
  | Except.error _ => Except.ok []
  | Except.ok a => do
      let vols ← a.Volumes.mapM splitVol
      let rov := vols.foldl (fun d p => insertA d p.1 p.2) []
      Except.ok
        [("read_only_volumes", Val.strDict rov),
         ("extra_create_kwargs", Val.strDict [("volume_driver", a.VolumeDriver)]),
         ("extra_host_config", Val.listDict [("devices", a.Devices)])]

/-- `_docker_profile(self, nvidia_args, image)`: build the spawner-args dict
(base entries, then `docker_spawner_args`, then the nvidia args, each merged
with dict update semantics) and wrap it into a profile tuple. -/
def docker_profile (s : Spawner) (na : Dict) (image : String) : Profile :=
  let spawner_args : Dict :=
    [("container_image", Val.str image), ("network_name", Val.str s.user_name)]
  let spawner_args := dictUpdate spawner_args s.docker_spawner_args
  let spawner_args := dictUpdate spawner_args na
  let nvidia_enabled := if 0 < na.length then "w/GPU" else "no GPU"
  { display := "Docker: (" ++ nvidia_enabled ++ "): " ++ image,
    key := "docker-" ++ image,
    ty := SpawnerClass.named "dockerspawner.SystemUserSpawner",
    options := spawner_args }

/-- The message of the exception raised when the docker package is missing. -/
def dockerMissingMsg : String :=
  "The docker package is not installed and is a dependency for DockerProfilesSpawner"

/-- The tag filter `jupyterhub_docker_tag_re`: under `re.match`, a
newline-free tag matches the pattern whose text anchors at both ends and
requires the literal tail `jupyterhub` exactly when the tag ends in that
literal.  The test is written on character lists so it evaluates by kernel
reduction. -/
def matchesJupyterhubTag (tag : String) : Bool :=
  "jupyterhub".data.isSuffixOf tag.data

/-- `_jupyterhub_docker_tags(self)`: when the `docker` module failed to
import, referencing it raises `NameError`, which the method turns into an
`Exception`; otherwise flatten the tag lists of all images known to the
runtime and keep the tags matched by `matchesJupyterhubTag`.  The docker
environment is modelled as `none` (client unavailable) or `some` list of
per-image tag lists. -/
def jupyterhub_docker_tags (da : Option (List (List String))) :
    Except PyErr (List String) :=
  match da with
  | none => Except.error (PyErr.exception dockerMissingMsg)
  | some imgs =>
      Except.ok (imgs.flatten.filter (fun tag => matchesJupyterhubTag tag))

/-- `_docker_profiles(self)`: one synthesized profile per retained tag, each
built from a fresh probe of the GPU sidecar; an exception from tag discovery
or from the probe propagates to the caller. -/
def docker_profiles (s : Spawner) (da : Option (List (List String)))
    (fetch : Except URLError NvidiaJson) : Except PyErr (List Profile) :=
  match jupyterhub_docker_tags da with
  | Except.error e => Except.error e
  | Except.ok tags =>
      tags.mapM (fun tag =>
        match nvidia_args fetch with
        | Except.error e => Except.error e
        | Except.ok na => Except.ok (docker_profile s na tag))

/-- The `profiles` property: the static `default_profiles` followed by the
dynamically discovered docker profiles; an exception from discovery
propagates to whoever reads the property. -/
def profiles (s : Spawner) (da : Option (List (List String)))
    (fetch : Except URLError NvidiaJson) : Except PyErr (List Profile) :=
  match docker_profiles s da fetch with
  | Except.error e => Except.error e
  | Except.ok dps => Except.ok (s.default_profiles ++ dps)

/-! ## Images and the options form -/

/-- `images(self, group="")`: for a truthy (non-empty) group name, look the
group up in `group_images` with `[]` as fallback; for a falsy group name,
return `default_profile_image`. -/
def images (s : Spawner) (group : String) : List Image :=
  if group ≠ "" then (lookupA s.group_images group).getD []
  else s.default_profile_image

/-- The flattened per-group image list walked by the form renderer:
`for group in self.groups: ... self.images(group)`. -/
def flattened_images (s : Spawner) : List Image :=
  (s.groups.map (fun g => images s g)).flatten

/-- One field-substitution record for a profile:
`dict(display=p[0], key=p[1], type=p[2], first="")`. -/
structure ProfileRecord where
  display : String
  key : String
  ty : SpawnerClass
  first : String
deriving DecidableEq

/-- One field-substitution record for an image:
`dict(display=p[0], key=p[1], first="")`. -/
structure ImageRecord where
  display : String
  key : String
  first : String
deriving DecidableEq

/-- `temp_keys`: one record per profile, with an empty `first` field. -/
def temp_keys (profs : List Profile) : List ProfileRecord :=
  profs.map (fun p => ⟨p.display, p.key, p.ty, ""⟩)

/-- `temp_keys[0]["first"] = self.first_template`, when the list is
non-empty (the source raises `IndexError` otherwise, handled at the caller). -/
def mark_first_profile (ft : String) : List ProfileRecord → List ProfileRecord
  | [] => []
  | r :: rs => { r with first := ft } :: rs

/-- The image records accumulated over `self.groups`. -/
def temp_images (s : Spawner) : List ImageRecord :=
  (s.groups.map (fun g =>
    (images s g).map (fun im => (⟨im.display, im.key, ""⟩ : ImageRecord)))).flatten

/-- `if temp_images: temp_images[0]["first"] = self.first_template`. -/
def mark_first_image (ft : String) : List ImageRecord → List ImageRecord
  | [] => []
  | r :: rs => { r with first := ft } :: rs

/-- The default `input_template` applied to one profile record.  The default
template uses the `key`, `first` and `display` fields. -/
def input_template_fmt (r : ProfileRecord) : String :=
  "\n        <option value=\"" ++ r.key ++ "\" " ++ r.first ++ ">"
    ++ r.display ++ "</option>"

/-- The default `input_image_template` applied to one image record. -/
def input_image_template_fmt (r : ImageRecord) : String :=
  "\n        <option value=\"" ++ r.key ++ "\" " ++ r.first ++ ">"
    ++ r.display ++ "</option>"

/-- The default `form_template` with the two concatenations substituted for
its two placeholders. -/
def form_template_fmt (text textImages : String) : String :=
  "<label for=\"profile\">Select a job profile:</label>\n        "
    ++ "<select class=\"form-control\" name=\"profile\" required autofocus>\n        "
    ++ text
    ++ "\n        </select>\n        \n        "
    ++ "<label for=\"profile\">Select docker image:</label>\n        "
    ++ "<select class=\"form-control\" name=\"dockerImage\" required autofocus>\n        "
    ++ textImages
    ++ "\n        </select>\n        "

/-- The `options_form` property: build the profile records, mark the first
one (raising `IndexError` when the registry is empty), build and mark the
image records, render each record through its template and substitute the
concatenations into the form template.  The registry list that
`self.profiles` evaluates to is passed as a parameter. -/
def options_form (s : Spawner) (profs : List Profile) : Except PyErr String :=
  match temp_keys profs with
  | [] => Except.error PyErr.indexError
  | r :: rs =>
      let tks := { r with first := s.first_template } :: rs
      let tis := mark_first_image s.first_template (temp_images s)
      Except.ok (form_template_fmt
        (String.join (tks.map input_template_fmt))
        (String.join (tis.map input_image_template_fmt)))

/-- `options_from_form(self, formdata)`: build
`dict(profile=..., dockerImage=...)`.  Python evaluates both keyword
arguments, and evaluates the default argument of each `formdata.get` call
eagerly.  The first default subscripts `self.profiles[0]` (an `IndexError`
on an empty registry); the result of the `get` is subscripted with `[0]`
(an `IndexError` on an empty value list).  The second default evaluates
`self.images[0][1]`: `images` is defined as a method, not a property, so
`self.images` is a bound-method object and subscripting it raises
`TypeError` on every call.  `formdata` is a Python dict from field names to
value lists. -/
def options_from_form (profs : List Profile)
    (formdata : List (String × List String)) :
    Except PyErr (String × String) :=
  match profs with
  | [] => Except.error PyErr.indexError
  | p :: _ =>
      match (lookupA formdata "profile").getD [p.key] with
      | [] => Except.error PyErr.indexError
      | _ :: _ => Except.error PyErr.typeError

/-! ## Concrete instances used by witnesses and counterexamples -/

/-- A spawner instance with the example registry of the specification. -/
def exSpawner : Spawner :=
  { groups := ["group_a"],
    default_profiles :=
      [⟨"Local", "local", SpawnerClass.localProcessSpawner, []⟩,
       ⟨"GPU box", "docker-img1", SpawnerClass.named "ContainerBackend",
        [("container_image", Val.str "img1")]⟩],
    group_images := [("group_a", [⟨"base image group_a", "jupyterhub/singleuser"⟩])],
    default_profile_image := [⟨"base", "jupyterhub/singleuser"⟩],
    docker_spawner_args := [],
    first_template := "selected",
    user_name := "alice",
    child_profile := "",
    profile_image := "",
    child_class := SpawnerClass.localProcessSpawner,
    child_config := [] }

/-- The example registry from the specification: a local profile and a
container profile keyed "docker-img1". -/
def exRegistry : List Profile :=
  [⟨"Local", "local", SpawnerClass.localProcessSpawner, []⟩,
   ⟨"GPU box", "docker-img1", SpawnerClass.named "ContainerBackend",
    [("container_image", Val.str "img1")]⟩]

/-! ## Association list lemmas -/

theorem lookupA_insertA_self {α : Type} (d : List (String × α)) (k : String)
    (v : α) : lookupA (insertA d k v) k = some v := by
  induction d with
  | nil => simp [insertA, lookupA]
  | cons p rest ih =>
      obtain ⟨k1, v1⟩ := p
      by_cases h : k1 = k
      · simp [insertA, lookupA, h]
      · simp [insertA, lookupA, h, ih]

theorem lookupA_insertA_ne {α : Type} (d : List (String × α)) (k k2 : String)
    (v : α) (h : k2 ≠ k) : lookupA (insertA d k v) k2 = lookupA d k2 := by
  induction d with
  | nil => simp [insertA, lookupA, h, Ne.symm h]
  | cons p rest ih =>
      obtain ⟨k1, v1⟩ := p
      by_cases h1 : k1 = k
      · subst h1
        simp [insertA, lookupA, h, Ne.symm h]
      · by_cases h2 : k1 = k2
        · subst h2
          simp [insertA, lookupA, h1, h, Ne.symm h]
        · simp [insertA, lookupA, h1, h2, ih]

theorem lookupA_dictUpdate_none (d e : Dict) (k : String)
    (hd : lookupA d k = none) (he : lookupA e k = none) :
    lookupA (dictUpdate d e) k = none := by
  induction e generalizing d with
  | nil => simpa [dictUpdate] using hd
  | cons p rest ih =>
      obtain ⟨k1, v1⟩ := p
      have hne : ¬(k1 = k) := by
        intro hk
        simp [lookupA, hk] at he
      have he2 : lookupA rest k = none := by
        simpa [lookupA, hne] using he
      have : dictUpdate d ((k1, v1) :: rest) = dictUpdate (insertA d k1 v1) rest := rfl
      rw [this]
      apply ih
      · rw [lookupA_insertA_ne d k1 k v1 (fun hk => hne hk.symm)]
        exact hd
      · exact he2

/-! ## Lemmas about the selection controller -/

theorem selectFromList_eq_none (registry : List Profile) (profile image : String)
    (h : ∀ p ∈ registry, p.key ≠ profile) :
    selectFromList registry profile image = none := by
  induction registry with
  | nil => rfl
  | cons p rest ih =>
      have hp : p.key ≠ profile := h p (by simp)
      have ht : ∀ q ∈ rest, q.key ≠ profile := fun q hq => h q (by simp [hq])
      simp [selectFromList, hp, ih ht]

theorem selectFromList_first_match (pre : List Profile) (e : Profile)
    (post : List Profile) (image : String)
    (hpre : ∀ p ∈ pre, p.key ≠ e.key) :
    selectFromList (pre ++ e :: post) e.key image =
      some (e.ty, insertA e.options "image" (Val.str image),
        pre ++ { e with options := insertA e.options "image" (Val.str image) } :: post) := by
  induction pre with
  | nil => simp [selectFromList]
  | cons p rest ih =>
      have hp : p.key ≠ e.key := hpre p (by simp)
      have ht : ∀ q ∈ rest, q.key ≠ e.key := fun q hq => hpre q (by simp [hq])
      simp [selectFromList, hp, ih ht]

theorem select_profile_fst_child_profile (s : Spawner) (registry : List Profile)
    (profile image : String) :
    (select_profile s registry profile image).1.child_profile = s.child_profile := by
  cases h : selectFromList registry profile image with
  | none => simp [select_profile, h]
  | some v =>
      obtain ⟨c, d, reg2⟩ := v
      simp [select_profile, h]

theorem select_profile_fst_profile_image (s : Spawner) (registry : List Profile)
    (profile image : String) :
    (select_profile s registry profile image).1.profile_image = s.profile_image := by
  cases h : selectFromList registry profile image with
  | none => simp [select_profile, h]
  | some v =>
      obtain ⟨c, d, reg2⟩ := v
      simp [select_profile, h]

/-! ## Claim theorems about the selection controller -/

/-- C3: for every registry and every submitted profile key matching no
registry entry, `select_profile` raises no error (it is a total function on
the embedded state) and leaves the spawner state, including `child_class`
and `child_config`, and the registry exactly as they were; calling it again
gives the same outcome, so the no-match behaviour is deterministic across
repeated calls. -/
theorem c3_select_profile_no_match (s : Spawner) (registry : List Profile)
    (profile image : String) (h : ∀ p ∈ registry, p.key ≠ profile) :
    select_profile s registry profile image = (s, registry) ∧
    select_profile (select_profile s registry profile image).1
      (select_profile s registry profile image).2 profile image = (s, registry) := by
  have h1 : select_profile s registry profile image = (s, registry) := by
    simp [select_profile, selectFromList_eq_none registry profile image h]
  refine ⟨h1, ?_⟩
  rw [h1]
  exact h1

/-- C3 witness: a concrete no-match call on the example registry leaves the
state and the registry unchanged on the first and on the repeated call. -/
theorem c3_select_profile_no_match_witness :
    (∀ p ∈ exRegistry, p.key ≠ "missing") ∧
    (select_profile exSpawner exRegistry "missing" "img" = (exSpawner, exRegistry) ∧
     select_profile (select_profile exSpawner exRegistry "missing" "img").1
       (select_profile exSpawner exRegistry "missing" "img").2 "missing" "img" =
       (exSpawner, exRegistry)) :=
  ⟨by decide, c3_select_profile_no_match exSpawner exRegistry "missing" "img" (by decide)⟩

/-- C2 counterexample: resolving the example profile mutates the registry
entry itself, because `self.child_config = p[3]` aliases the dictionary
stored in the registry tuple; the claim that the entry option mapping is
left unmodified is false. -/
theorem c2_counterexample_registry_mutated :
    (select_profile exSpawner exRegistry "docker-img1" "img1").2 ≠ exRegistry := by
  decide

/-- C2 (amended): on a match (the first entry with the submitted key),
`select_profile` sets `child_class` to the entry class and `child_config` to
the entry option mapping with the chosen image inserted under "image" — but
`child_config` is the entry dictionary itself, not a copy, so the registry
entry option mapping is updated along with it. -/
theorem c2_select_profile_aliasing (s : Spawner) (pre : List Profile)
    (e : Profile) (post : List Profile) (image : String)
    (hpre : ∀ p ∈ pre, p.key ≠ e.key) :
    (select_profile s (pre ++ e :: post) e.key image).1.child_class = e.ty ∧
    (select_profile s (pre ++ e :: post) e.key image).1.child_config =
      insertA e.options "image" (Val.str image) ∧
    (select_profile s (pre ++ e :: post) e.key image).2 =
      pre ++ { e with options := insertA e.options "image" (Val.str image) } :: post := by
  simp [select_profile, selectFromList_first_match pre e post image hpre]

/-- C2 witness: the example of the specification, with the registry
mutation made explicit.  Resolving profile "docker-img1" with image "img1"
yields the container backend class and the config mapping holding
container_image and image, and the registry entry now holds that same
mapping. -/
theorem c2_select_profile_aliasing_witness :
    (select_profile exSpawner exRegistry "docker-img1" "img1").1.child_class =
      SpawnerClass.named "ContainerBackend" ∧
    (select_profile exSpawner exRegistry "docker-img1" "img1").1.child_config =
      [("container_image", Val.str "img1"), ("image", Val.str "img1")] ∧
    (select_profile exSpawner exRegistry "docker-img1" "img1").2 =
      [⟨"Local", "local", SpawnerClass.localProcessSpawner, []⟩,
       ⟨"GPU box", "docker-img1", SpawnerClass.named "ContainerBackend",
        [("container_image", Val.str "img1"), ("image", Val.str "img1")]⟩] := by
  have h := c2_select_profile_aliasing exSpawner
    [⟨"Local", "local", SpawnerClass.localProcessSpawner, []⟩]
    ⟨"GPU box", "docker-img1", SpawnerClass.named "ContainerBackend",
      [("container_image", Val.str "img1")]⟩
    [] "img1" (by decide)
  exact ⟨h.1, h.2.1, h.2.2⟩

/-- C9: with duplicate keys in the registry, the first matching entry wins:
the loop breaks at the earliest entry whose key equals the submitted
profile, so `child_class` and `child_config` come from that entry and every
later entry, including the duplicate, is left exactly as it was. -/
theorem c9_first_match_wins (s : Spawner) (pre : List Profile) (e e2 : Profile)
    (mid post : List Profile) (image : String)
    (hpre : ∀ p ∈ pre, p.key ≠ e.key) (_hdup : e2.key = e.key) :
    (select_profile s (pre ++ e :: (mid ++ e2 :: post)) e.key image).1.child_class = e.ty ∧
    (select_profile s (pre ++ e :: (mid ++ e2 :: post)) e.key image).1.child_config =
      insertA e.options "image" (Val.str image) ∧
    (select_profile s (pre ++ e :: (mid ++ e2 :: post)) e.key image).2 =
      pre ++ { e with options := insertA e.options "image" (Val.str image) }
        :: (mid ++ e2 :: post) := by
  simp [select_profile,
    selectFromList_first_match pre e (mid ++ e2 :: post) image hpre]

/-- The example registry extended with a later entry shadowing the key
"docker-img1" with a different class and options. -/
def dupRegistry : List Profile :=
  [⟨"Local", "local", SpawnerClass.localProcessSpawner, []⟩,
   ⟨"GPU box", "docker-img1", SpawnerClass.named "ContainerBackend",
    [("container_image", Val.str "img1")]⟩,
   ⟨"Shadow", "docker-img1", SpawnerClass.named "OtherBackend",
    [("container_image", Val.str "other")]⟩]

/-- C9 witness: with a duplicate key, the earliest entry supplies the class
and the configuration, and the later duplicate is returned untouched. -/
theorem c9_first_match_wins_witness :
    (select_profile exSpawner dupRegistry "docker-img1" "img1").1.child_class =
      SpawnerClass.named "ContainerBackend" ∧
    (select_profile exSpawner dupRegistry "docker-img1" "img1").1.child_config =
      [("container_image", Val.str "img1"), ("image", Val.str "img1")] ∧
    (select_profile exSpawner dupRegistry "docker-img1" "img1").2 =
      [⟨"Local", "local", SpawnerClass.localProcessSpawner, []⟩,
       ⟨"GPU box", "docker-img1", SpawnerClass.named "ContainerBackend",
        [("container_image", Val.str "img1"), ("image", Val.str "img1")]⟩,
       ⟨"Shadow", "docker-img1", SpawnerClass.named "OtherBackend",
        [("container_image", Val.str "other")]⟩] := by
  have h := c9_first_match_wins exSpawner
    [⟨"Local", "local", SpawnerClass.localProcessSpawner, []⟩]
    ⟨"GPU box", "docker-img1", SpawnerClass.named "ContainerBackend",
      [("container_image", Val.str "img1")]⟩
    ⟨"Shadow", "docker-img1", SpawnerClass.named "OtherBackend",
      [("container_image", Val.str "other")]⟩
    [] [] "img1" (by decide) (by decide)
  exact ⟨h.1, h.2.1, h.2.2⟩

/-- C4: persisting the selection with `get_state` and restoring it with
`load_child_class` reproduces exactly the same pair in `child_profile` and
`profile_image`, whatever base state the superclass supplies and whatever
spawner instance the state is restored into. -/
theorem c4_round_trip (s s2 : Spawner) (registry : List Profile)
    (base : List (String × String)) :
    (load_child_class s2 registry (get_state s base)).1.child_profile =
      s.child_profile ∧
    (load_child_class s2 registry (get_state s base)).1.profile_image =
      s.profile_image := by
  have hd : lookupA (get_state s base) "dockerImage" = some s.profile_image := by
    simp [get_state, lookupA_insertA_self]
  have hp : lookupA (get_state s base) "profile" = some s.child_profile := by
    unfold get_state
    rw [lookupA_insertA_ne _ _ _ _ (by decide)]
    exact lookupA_insertA_self _ _ _
  simp [load_child_class, hp, hd, select_profile_fst_child_profile,
    select_profile_fst_profile_image]

/-- C5: restoring from a persisted state missing the "profile" key or the
"dockerImage" key raises no error (the `KeyError` is caught) and resets both
selection fields to the empty string. -/
theorem c5_restore_missing_keys (s : Spawner) (registry : List Profile)
    (st : List (String × String))
    (h : lookupA st "profile" = none ∨ lookupA st "dockerImage" = none) :
    (load_child_class s registry st).1.child_profile = "" ∧
    (load_child_class s registry st).1.profile_image = "" := by
  rcases h with h | h
  · simp [load_child_class, h, select_profile_fst_child_profile,
      select_profile_fst_profile_image]
  · cases hp : lookupA st "profile" <;>
      simp [load_child_class, h, hp, select_profile_fst_child_profile,
        select_profile_fst_profile_image]

/-- C5 witness: a state holding only the "profile" key restores to the empty
selection. -/
theorem c5_restore_missing_keys_witness :
    (lookupA [("profile", "x")] "profile" = none ∨
     lookupA [("profile", "x")] "dockerImage" = none) ∧
    ((load_child_class exSpawner exRegistry [("profile", "x")]).1.child_profile = "" ∧
     (load_child_class exSpawner exRegistry [("profile", "x")]).1.profile_image = "") :=
  ⟨Or.inr (by decide),
   c5_restore_missing_keys exSpawner exRegistry [("profile", "x")] (Or.inr (by decide))⟩

/-! ## Lemmas about discovery and the probe -/

theorem mapM_ok_of_ok {α β : Type} (f : α → β) (l : List α) :
    (l.mapM (fun a => (Except.ok (f a) : Except PyErr β))) = Except.ok (l.map f) := by
  induction l with
  | nil => rfl
  | cons a rest ih =>
      rw [List.mapM_cons, ih]
      rfl

/-- C6: a network-level failure of the GPU sidecar probe yields the empty
dict without raising, and a profile discovered from that empty result holds
none of the three GPU configuration keys (provided the configured
`docker_spawner_args` does not itself supply them; its default is the empty
dict) and is labelled as having no GPU. -/
theorem c6_probe_failure_no_gpu (err : URLError) (s : Spawner) (image : String)
    (h1 : lookupA s.docker_spawner_args "read_only_volumes" = none)
    (h2 : lookupA s.docker_spawner_args "extra_create_kwargs" = none)
    (h3 : lookupA s.docker_spawner_args "extra_host_config" = none) :
    nvidia_args (Except.error err) = Except.ok [] ∧
    lookupA (docker_profile s [] image).options "read_only_volumes" = none ∧
    lookupA (docker_profile s [] image).options "extra_create_kwargs" = none ∧
    lookupA (docker_profile s [] image).options "extra_host_config" = none ∧
    (docker_profile s [] image).display = "Docker: (no GPU): " ++ image := by
  have hopt : (docker_profile s [] image).options =
      dictUpdate [("container_image", Val.str image),
        ("network_name", Val.str s.user_name)] s.docker_spawner_args := rfl
  refine ⟨rfl, ?_, ?_, ?_, ?_⟩
  · rw [hopt]
    exact lookupA_dictUpdate_none _ _ _ (by simp [lookupA]) h1
  · rw [hopt]
    exact lookupA_dictUpdate_none _ _ _ (by simp [lookupA]) h2
  · rw [hopt]
    exact lookupA_dictUpdate_none _ _ _ (by simp [lookupA]) h3
  · rfl

/-- C6 witness: with the default (empty) `docker_spawner_args`, a probe
failure yields a GPU-free profile for the tag "img1". -/
theorem c6_probe_failure_no_gpu_witness :
    (lookupA exSpawner.docker_spawner_args "read_only_volumes" = none ∧
     lookupA exSpawner.docker_spawner_args "extra_create_kwargs" = none ∧
     lookupA exSpawner.docker_spawner_args "extra_host_config" = none) ∧
    (nvidia_args (Except.error (URLError.mk "connection refused")) = Except.ok [] ∧
     lookupA (docker_profile exSpawner [] "img1").options "read_only_volumes" = none ∧
     lookupA (docker_profile exSpawner [] "img1").options "extra_create_kwargs" = none ∧
     lookupA (docker_profile exSpawner [] "img1").options "extra_host_config" = none ∧
     (docker_profile exSpawner [] "img1").display = "Docker: (no GPU): " ++ "img1") :=
  ⟨⟨rfl, rfl, rfl⟩,
   c6_probe_failure_no_gpu (URLError.mk "connection refused") exSpawner "img1"
     rfl rfl rfl⟩

/-- C8: when the container-runtime client is unavailable, tag discovery
raises the configuration error; the `profiles` registry raises that exact
error precisely when the client is unavailable (so merely not reading the
registry never produces it, and reading it with an available client never
does); with an available client, the registry is the static profile list
followed by one discovered profile per retained tag, in order. -/
theorem c8_discovery_error_and_order (s : Spawner)
    (fetch : Except URLError NvidiaJson) (na : Dict)
    (h : nvidia_args fetch = Except.ok na) :
    jupyterhub_docker_tags none = Except.error (PyErr.exception dockerMissingMsg) ∧
    (∀ da, profiles s da fetch = Except.error (PyErr.exception dockerMissingMsg) ↔
      da = none) ∧
    (∀ imgs, profiles s (some imgs) fetch = Except.ok (s.default_profiles ++
      (imgs.flatten.filter (fun tag => matchesJupyterhubTag tag)).map
        (fun tag => docker_profile s na tag))) := by
  have hfun : (fun tag =>
      match nvidia_args fetch with
      | Except.error e => (Except.error e : Except PyErr Profile)
      | Except.ok na2 => Except.ok (docker_profile s na2 tag)) =
      (fun tag => (Except.ok (docker_profile s na tag) : Except PyErr Profile)) := by
    funext tag
    rw [h]
  have hsome : ∀ imgs : List (List String),
      profiles s (some imgs) fetch = Except.ok (s.default_profiles ++
        (imgs.flatten.filter (fun tag => matchesJupyterhubTag tag)).map
          (fun tag => docker_profile s na tag)) := by
    intro imgs
    have hdp : docker_profiles s (some imgs) fetch =
        Except.ok ((imgs.flatten.filter (fun tag => matchesJupyterhubTag tag)).map
          (fun tag => docker_profile s na tag)) := by
      simp only [docker_profiles, jupyterhub_docker_tags]
      rw [hfun]
      exact mapM_ok_of_ok _ _
    simp only [profiles, hdp]
  refine ⟨rfl, ?_, hsome⟩
  intro da
  cases da with
  | none => simp only [profiles, docker_profiles, jupyterhub_docker_tags]
  | some imgs => simp [hsome imgs]

/-- C8 witness: with the probe failing at the network level (so the nvidia
args are empty), an unavailable client makes both tag discovery and the
registry raise the configuration error, while an available client holding
one matching and one non-matching tag yields the static profile followed by
the one discovered profile. -/
theorem c8_discovery_error_and_order_witness :
    nvidia_args (Except.error (URLError.mk "down")) = Except.ok [] ∧
    jupyterhub_docker_tags none =
      Except.error (PyErr.exception dockerMissingMsg) ∧
    profiles exSpawner none (Except.error (URLError.mk "down")) =
      Except.error (PyErr.exception dockerMissingMsg) ∧
    profiles exSpawner (some [["repo/jupyterhub", "repo/other"]])
        (Except.error (URLError.mk "down")) =
      Except.ok (exSpawner.default_profiles ++
        [docker_profile exSpawner [] "repo/jupyterhub"]) := by
  have h := c8_discovery_error_and_order exSpawner
    (Except.error (URLError.mk "down")) [] rfl
  refine ⟨rfl, h.1, (h.2.1 none).mpr rfl, ?_⟩
  rw [h.2.2 [["repo/jupyterhub", "repo/other"]]]
  rfl

/-- C1 (code bug): `options_from_form` raises on every submission.  The
default argument of the second `formdata.get` subscripts `self.images`,
which is a bound method rather than a list (the `images` definition is a
method, unlike the `profiles` property), so every call raises `TypeError`
before the submitted fields can be returned — the submission never yields
the documented default selection. -/
theorem c1_options_from_form_always_raises (profs : List Profile)
    (formdata : List (String × List String)) :
    ∃ e, options_from_form profs formdata = Except.error e := by
  cases profs with
  | nil => exact ⟨PyErr.indexError, rfl⟩
  | cons p ps =>
      cases hl : (lookupA formdata "profile").getD [p.key] with
      | nil =>
          refine ⟨PyErr.indexError, ?_⟩
          simp [options_from_form, hl]
      | cons x xs =>
          refine ⟨PyErr.typeError, ?_⟩
          simp [options_from_form, hl]

/-! ## Lemmas about the form renderer -/

theorem temp_images_eq_map (s : Spawner) :
    temp_images s = (flattened_images s).map
      (fun im => (⟨im.display, im.key, ""⟩ : ImageRecord)) := by
  simp only [temp_images, flattened_images, List.map_flatten, List.map_map]
  rfl

theorem mark_first_profile_length (ft : String) (l : List ProfileRecord) :
    (mark_first_profile ft l).length = l.length := by
  cases l <;> rfl

theorem mark_first_image_length (ft : String) (l : List ImageRecord) :
    (mark_first_image ft l).length = l.length := by
  cases l <;> rfl

theorem temp_keys_first_empty (profs : List Profile) :
    ∀ r ∈ temp_keys profs, r.first = "" := by
  intro r hr
  simp only [temp_keys, List.mem_map] at hr
  obtain ⟨p, _, rfl⟩ := hr
  rfl

theorem temp_images_first_empty (s : Spawner) :
    ∀ r ∈ temp_images s, r.first = "" := by
  intro r hr
  rw [temp_images_eq_map] at hr
  simp only [List.mem_map] at hr
  obtain ⟨im, _, rfl⟩ := hr
  rfl

/-! ## Claim theorems about the form renderer -/

/-- C7: for a non-empty registry of N profiles, the rendered form is the
outer template applied to the concatenation of exactly N rendered profile
option elements and exactly M rendered image option elements (M the length
of the flattened per-group image list); the first profile record carries the
configured selected marker and the `first` field of every other record is
empty, and likewise for the image records when the image list is
non-empty. -/
theorem c7_options_form_render (s : Spawner) (profs : List Profile)
    (h : profs ≠ []) :
    options_form s profs = Except.ok (form_template_fmt
      (String.join ((mark_first_profile s.first_template (temp_keys profs)).map
        input_template_fmt))
      (String.join ((mark_first_image s.first_template (temp_images s)).map
        input_image_template_fmt))) ∧
    (mark_first_profile s.first_template (temp_keys profs)).length = profs.length ∧
    (mark_first_image s.first_template (temp_images s)).length =
      (flattened_images s).length ∧
    ((mark_first_profile s.first_template (temp_keys profs)).head?).map
      ProfileRecord.first = some s.first_template ∧
    (∀ r ∈ (mark_first_profile s.first_template (temp_keys profs)).tail,
      r.first = "") ∧
    (flattened_images s ≠ [] →
      ((mark_first_image s.first_template (temp_images s)).head?).map
        ImageRecord.first = some s.first_template ∧
      ∀ r ∈ (mark_first_image s.first_template (temp_images s)).tail,
        r.first = "") := by
  cases profs with
  | nil => exact absurd rfl h
  | cons p ps =>
      refine ⟨rfl, ?_, ?_, rfl, ?_, ?_⟩
      · rw [mark_first_profile_length]
        simp [temp_keys]
      · rw [mark_first_image_length, temp_images_eq_map, List.length_map]
      · intro r hr
        exact temp_keys_first_empty ps r hr
      · intro him
        cases hti : temp_images s with
        | nil =>
            exfalso
            rw [temp_images_eq_map] at hti
            exact him (List.map_eq_nil_iff.mp hti)
        | cons r rs =>
            refine ⟨by simp [mark_first_image, hti], ?_⟩
            intro r2 hr2
            simp only [mark_first_image, hti, List.tail_cons] at hr2
            exact temp_images_first_empty s r2 (by rw [hti]; exact List.mem_cons_of_mem r hr2)

/-- C7 witness: the example spawner has one group holding one image, so the
registry of two profiles renders to two profile option elements and one
image option element, markers on the first of each. -/
theorem c7_options_form_render_witness :
    exRegistry ≠ [] ∧
    (options_form exSpawner exRegistry = Except.ok (form_template_fmt
      (String.join ((mark_first_profile exSpawner.first_template
        (temp_keys exRegistry)).map input_template_fmt))
      (String.join ((mark_first_image exSpawner.first_template
        (temp_images exSpawner)).map input_image_template_fmt))) ∧
    (mark_first_profile exSpawner.first_template (temp_keys exRegistry)).length =
      exRegistry.length ∧
    (mark_first_image exSpawner.first_template (temp_images exSpawner)).length =
      (flattened_images exSpawner).length ∧
    ((mark_first_profile exSpawner.first_template (temp_keys exRegistry)).head?).map
      ProfileRecord.first = some exSpawner.first_template ∧
    (∀ r ∈ (mark_first_profile exSpawner.first_template (temp_keys exRegistry)).tail,
      r.first = "") ∧
    (flattened_images exSpawner ≠ [] →
      ((mark_first_image exSpawner.first_template (temp_images exSpawner)).head?).map
        ImageRecord.first = some exSpawner.first_template ∧
      ∀ r ∈ (mark_first_image exSpawner.first_template (temp_images exSpawner)).tail,
        r.first = "")) :=
  ⟨by decide, c7_options_form_render exSpawner exRegistry (by decide)⟩

/-- C10: when the flattened per-group image list of the user is empty, the
form renders without failing: there are no image option elements, no
selected marker appears in the image group (the image fragment is the empty
string), and the profile group renders exactly as for C7. -/
theorem c10_options_form_no_images (s : Spawner) (profs : List Profile)
    (h1 : profs ≠ []) (h2 : flattened_images s = []) :
    temp_images s = [] ∧
    mark_first_image s.first_template (temp_images s) = [] ∧
    options_form s profs = Except.ok (form_template_fmt
      (String.join ((mark_first_profile s.first_template (temp_keys profs)).map
        input_template_fmt))
      "") := by
  have ht : temp_images s = [] := by
    rw [temp_images_eq_map, h2]
    rfl
  refine ⟨ht, by rw [ht]; rfl, ?_⟩
  cases profs with
  | nil => exact absurd rfl h1
  | cons p ps =>
      have hof : options_form s (p :: ps) = Except.ok (form_template_fmt
        (String.join ((mark_first_profile s.first_template
          (temp_keys (p :: ps))).map input_template_fmt))
        (String.join ((mark_first_image s.first_template (temp_images s)).map
          input_image_template_fmt))) := rfl
      rw [hof, ht]
      rfl

/-- A spawner whose only group has no image list configured, so its
flattened image list is empty. -/
def exSpawnerNoImages : Spawner :=
  { exSpawner with groups := ["group_x"] }

/-- C10 witness: for a user whose group has no images, the form renders with
an empty image fragment and the profile group intact. -/
theorem c10_options_form_no_images_witness :
    (exRegistry ≠ [] ∧ flattened_images exSpawnerNoImages = []) ∧
    (temp_images exSpawnerNoImages = [] ∧
     mark_first_image exSpawnerNoImages.first_template
       (temp_images exSpawnerNoImages) = [] ∧
     options_form exSpawnerNoImages exRegistry = Except.ok (form_template_fmt
       (String.join ((mark_first_profile exSpawnerNoImages.first_template
         (temp_keys exRegistry)).map input_template_fmt))
       "")) :=
  ⟨⟨by decide, by decide⟩,
   c10_options_form_no_images exSpawnerNoImages exRegistry (by decide) (by decide)⟩
